import Mathlib

/-!
Verification of the q2-diversity-lib plugin registration module
(`q2_diversity_lib/plugin_setup.py`).

The module is a flat sequence of declarative registration calls against a
single QIIME 2 `Plugin` object.  We embed:

* the QIIME type-expression vocabulary used by the module
  (`Int`, `Float`, `Str`, `Bool`, `%` with `Range`/`Choices`, `|`, `List`,
  and the semantic artifact types `FeatureTable[...]`, `Phylogeny[Rooted]`,
  `SampleData[AlphaDiversity]`, `DistanceMatrix`);
* a value semantics `accepts` for the primitive parameter types, mirroring
  the framework's validation of a concrete argument against a declared type
  (Python floats are modelled as rationals; only the ordering tests of
  `Range` matter here);
* every `register_function` call as a `Registration` record, field by field
  (Python adjacent string literals are concatenated exactly as Python
  concatenates them, including the places where the source is missing a
  space);
* the module's top-level statement sequence, and an interpreter for it that
  tracks the registry owned by the single plugin object.

The metric choice lists `alpha.METRICS['NONPHYLO']['UNIMPL']`,
`beta.METRICS['NONPHYLO']['UNIMPL']`, `beta.METRICS['PHYLO']['UNIMPL']` and
`unifrac._meta.CONSOLIDATIONS` come from modules that are not part of this
repository's sources, so every definition and theorem is parameterized over
those four string lists; the results below hold for all of their values.
-/

namespace Q2DiversityLib

/-- Feature-table normalization kinds from `q2_types.feature_table`. -/
inductive Norm where
  | Frequency
  | RelativeFrequency
  | PresenceAbsence
deriving DecidableEq

/-- Tree kinds from `q2_types.tree`; the module imports only `Rooted`. -/
inductive TreeKind where
  | Rooted
deriving DecidableEq

/-- Sample-data kinds from `q2_types.sample_data`; only `AlphaDiversity`
is used. -/
inductive SDataKind where
  | AlphaDiversity
deriving DecidableEq

/-- A constraint attached to a primitive type with the `%` operator.
`Range lo hi inclusiveStart inclusiveEnd` models
`Range(lo, hi, inclusive_start=..., inclusive_end=...)` with Python's
defaults `inclusive_start=True`, `inclusive_end=False`; `none` models a
`None` bound.  `Choices cs` models `Choices(cs)`. -/
inductive Constraint where
  | Range (lo hi : Option Int) (inclusiveStart inclusiveEnd : Bool)
  | Choices (cs : List String)
deriving DecidableEq

/-- QIIME type expressions as used by the module. -/
inductive QType where
  | Int
  | Float
  | Str
  | Bool
  | mod (base : QType) (c : Constraint)
  | union (a b : QType)
  | ListOf (t : QType)
  | FeatureTable (norms : List Norm)
  | Phylogeny (k : TreeKind)
  | SampleData (k : SDataKind)
  | DistanceMatrix
deriving DecidableEq

/-- Concrete argument values the framework can validate against a declared
primitive parameter type.  Python floats are modelled as rationals. -/
inductive Value where
  | int (n : Int)
  | float (q : Rat)
  | str (s : String)
  | bool (b : Bool)
  | list (vs : List Value)

/-- The numeric content of a value, if any (used by `Range` checks). -/
def numericVal : Value → Option Rat
  | .int n => some (n : Rat)
  | .float q => some q
  | _ => none

/-- Lower-bound test of a `Range` constraint. -/
def lowerOk (lo : Option Int) (incl : Bool) (q : Rat) : Bool :=
  match lo with
  | none => true
  | some l => if incl then decide ((l : Rat) ≤ q) else decide ((l : Rat) < q)

/-- Upper-bound test of a `Range` constraint. -/
def upperOk (hi : Option Int) (incl : Bool) (q : Rat) : Bool :=
  match hi with
  | none => true
  | some h => if incl then decide (q ≤ (h : Rat)) else decide (q < (h : Rat))

/-- Does a value satisfy a `%`-constraint? -/
def satisfies : Constraint → Value → Bool
  | .Range lo hi inclS inclE, v =>
    match numericVal v with
    | some q => lowerOk lo inclS q && upperOk hi inclE q
    | none => false
  | .Choices cs, v =>
    match v with
    | .str s => decide (s ∈ cs)
    | _ => false

/-- Does a declared type accept a concrete value?  Semantic artifact types
(`FeatureTable`, `Phylogeny`, `SampleData`, `DistanceMatrix`) describe
artifacts, not plain parameter values, and accept none of them. -/
def accepts : QType → Value → Bool
  | .Int, .int _ => true
  | .Float, .float _ => true
  | .Str, .str _ => true
  | .Bool, .bool _ => true
  | .mod base c, v => accepts base v && satisfies c v
  | .union a b, v => accepts a v || accepts b v
  | .ListOf t, .list vs => vs.all fun v => accepts t v
  | _, _ => false

/-- The declared type `Int % Range(1, None) | Str % Choices(['auto'])` used
by every thread/job-count parameter in the module. -/
def threadsType : QType :=
  .union (.mod .Int (.Range (some 1) none true false))
         (.mod .Str (.Choices ["auto"]))

/-- One `plugin.methods.register_function(...)` call, field by field.
`examples` maps each example key to the name of the attribute of the
`examples` module bound to it; `citations` lists the keys looked up in the
loaded citation store.  A keyword argument left at its default (for the
registrations that pass no `citations`) is modelled as `[]`. -/
structure Registration where
  function : String
  inputs : List (String × QType)
  parameters : Option (List (String × QType))
  outputs : List (String × QType)
  input_descriptions : Option (List (String × String))
  parameter_descriptions : Option (List (String × String))
  output_descriptions : Option (List (String × String))
  name : String
  description : String
  examples : List (String × String)
  citations : List String
deriving DecidableEq

/-- The module-level constant `n_jobs_description`. -/
def n_jobs_description : String :=
  "The number of concurrent jobs to use in performing this calculation. May not exceed the number of available physical cores. If n_jobs = \x27auto\x27, one job will be launched for each identified CPU core on the host."

/-- The module-level constant `threads_description`. -/
def threads_description : String :=
  "The number of CPU threads to use in performing this calculation. May not exceed the number of available physical cores. If threads = \x27auto\x27, one thread will be created for each identified CPU core on the host."

/-- The module-level constant `drop_undef_samples_description`. -/
def drop_undef_samples_description : String :=
  "When calculating some metrics, samples with fewer than a predetermined number of features produce undefined (NaN) values. If true, affected samples are dropped from metrics with \x27drop_undefined_samples\x27 implemented. For metrics without a \x27drop_undefined_samples\x27 parameter, this value will be ignored and no samples will be dropped."

/-- Registration of `alpha.faith_pd` (plugin_setup.py lines 54-79). -/
def faith_pd_reg : Registration where
  function := "alpha.faith_pd"
  inputs :=
    [("table", .FeatureTable [.Frequency, .RelativeFrequency, .PresenceAbsence]),
     ("phylogeny", .Phylogeny .Rooted)]
  parameters := some
    [("threads", .union (.mod .Int (.Range (some 1) none true false))
                        (.mod .Str (.Choices ["auto"])))]
  outputs := [("vector", .SampleData .AlphaDiversity)]
  input_descriptions := some
    [("table", "The feature table containing the samples for which Faith\x27s phylogenetic diversity should be computed. Table values will be converted to presence/absence."),
     ("phylogeny", "Phylogenetic tree containing tip identifiers that correspond to the feature identifiers in the table. This tree can contain tip ids that are not present in the table, but all feature ids in the table must be present in this tree.")]
  parameter_descriptions := some [("threads", threads_description)]
  output_descriptions := some
    [("vector", "Vector containing per-sample values for Faith\x27s Phylogenetic Diversity.")]
  name := "Faith\x27s Phylogenetic Diversity"
  description := "Computes Faith\x27s Phylogenetic Diversity for all samples in a feature table."
  examples := [("basic", "faith_pd_example")]
  citations := ["faith1992conservation", "armstrong2021faithspd"]

/-- Registration of `alpha.observed_features` (lines 81-98). -/
def observed_features_reg : Registration where
  function := "alpha.observed_features"
  inputs :=
    [("table", .FeatureTable [.Frequency, .RelativeFrequency, .PresenceAbsence])]
  parameters := none
  outputs := [("vector", .SampleData .AlphaDiversity)]
  input_descriptions := some
    [("table", "The feature table containing the samples for which the number of observed features should be calculated. Table values will be converted to presence/absence.")]
  parameter_descriptions := none
  output_descriptions := some
    [("vector", "Vector containing per-sample counts of observed features.")]
  name := "Observed Features"
  description := "Compute the number of observed features for each sample in a feature table"
  examples := [("basic", "observed_features_example")]
  citations := []

/-- Registration of `alpha.pielou_evenness` (lines 100-119). -/
def pielou_evenness_reg : Registration where
  function := "alpha.pielou_evenness"
  inputs := [("table", .FeatureTable [.Frequency, .RelativeFrequency])]
  parameters := some [("drop_undefined_samples", .Bool)]
  outputs := [("vector", .SampleData .AlphaDiversity)]
  input_descriptions := some
    [("table", "The feature table containing the samples for which Pielou\x27s evenness should be computed.")]
  parameter_descriptions := some
    [("drop_undefined_samples", "Samples with fewer than two observed features produce undefined (NaN) values. If true, these samples are dropped from the output vector.")]
  output_descriptions := some
    [("vector", "Vector containing per-sample values for Pielou\x27s Evenness.")]
  name := "Pielou\x27s Evenness"
  description := "Compute Pielou\x27s Evenness for each sample in a feature table"
  examples :=
    [("basic", "pielou_evenness_example"),
     ("dropping undefined samples", "pielou_drop_example")]
  citations := ["pielou1966measurement"]

/-- Registration of `alpha.shannon_entropy` (lines 122-141). -/
def shannon_entropy_reg : Registration where
  function := "alpha.shannon_entropy"
  inputs := [("table", .FeatureTable [.Frequency, .RelativeFrequency])]
  parameters := some [("drop_undefined_samples", .Bool)]
  outputs := [("vector", .SampleData .AlphaDiversity)]
  input_descriptions := some
    [("table", "The feature table containing the samples for which Shannon\x27s Entropy should be computed.")]
  parameter_descriptions := some
    [("drop_undefined_samples", "Samples with no observed features produce undefined (NaN) values. If true, these samples are dropped from the output vector.")]
  output_descriptions := some
    [("vector", "Vector containing per-sample values for Shannon\x27s Entropy.")]
  name := "Shannon\x27s Entropy"
  description := "Compute Shannon\x27s Entropy for each sample in a feature table"
  examples :=
    [("basic", "shannon_entropy_example"),
     ("dropping undefined samples", "shannon_drop_example")]
  citations := ["shannon1948communication"]

/-- Registration of `beta.bray_curtis` (lines 146-170). -/
def bray_curtis_reg : Registration where
  function := "beta.bray_curtis"
  inputs := [("table", .FeatureTable [.Frequency, .RelativeFrequency])]
  parameters := some
    [("n_jobs", .union (.mod .Int (.Range (some 1) none true false))
                       (.mod .Str (.Choices ["auto"])))]
  outputs := [("distance_matrix", .DistanceMatrix)]
  input_descriptions := some
    [("table", "The feature table containing the samples for which Bray-Curtis dissimilarity should be computed.")]
  parameter_descriptions := some [("n_jobs", n_jobs_description)]
  output_descriptions := some
    [("distance_matrix", "Distance matrix for Bray-Curtis dissimilarity")]
  name := "Bray-Curtis Dissimilarity"
  description := "Compute Bray-Curtis dissimilarity for each sample in a feature table. Note: Frequency and relative frequency data produce different results unless overall sample sizes are identical. Please consider the impact on your results if you use Bray-Curtis with count data that has not been adjusted (normalized)."
  examples :=
    [("run on one core (by default)", "bray_curtis_example"),
     ("to run on n cores, replace 1 here with your preferred integer", "bray_curtis_n_jobs_example"),
     ("use \x27auto\x27 to run on all of host system\x27s available CPU cores", "bray_curtis_auto_jobs_example")]
  citations := ["sorensen1948method"]

/-- Registration of `beta.jaccard` (lines 173-197).  The description keeps
the source's missing spaces introduced by Python adjacent-literal
concatenation ("usingpresence" and "reducedto"). -/
def jaccard_reg : Registration where
  function := "beta.jaccard"
  inputs :=
    [("table", .FeatureTable [.Frequency, .RelativeFrequency, .PresenceAbsence])]
  parameters := some
    [("n_jobs", .union (.mod .Int (.Range (some 1) none true false))
                       (.mod .Str (.Choices ["auto"])))]
  outputs := [("distance_matrix", .DistanceMatrix)]
  input_descriptions := some
    [("table", "The feature table containing the samples for which Jaccard distance should be computed.")]
  parameter_descriptions := some [("n_jobs", n_jobs_description)]
  output_descriptions := some
    [("distance_matrix", "Distance matrix for Jaccard index")]
  name := "Jaccard Distance"
  description := "Compute Jaccard distance for each sample in a feature table. Jaccard is calculated usingpresence/absence data. Data of type FeatureTable[Frequency | Relative Frequency] is reducedto presence/absence prior to calculation."
  examples :=
    [("run on one core (by default)", "jaccard_example"),
     ("to run on n cores, replace 1 here with your preferred integer", "jaccard_n_jobs_example"),
     ("use \x27auto\x27 to run on all of host system\x27s available CPU cores", "jaccard_auto_jobs_example")]
  citations := ["jaccard1908nouvelles"]

/-- Registration of `beta.unweighted_unifrac` (lines 200-243). -/
def unweighted_unifrac_reg : Registration where
  function := "beta.unweighted_unifrac"
  inputs :=
    [("table", .FeatureTable [.Frequency, .RelativeFrequency, .PresenceAbsence]),
     ("phylogeny", .Phylogeny .Rooted)]
  parameters := some
    [("threads", .union (.mod .Int (.Range (some 1) none true false))
                        (.mod .Str (.Choices ["auto"]))),
     ("bypass_tips", .Bool)]
  outputs := [("distance_matrix", .DistanceMatrix)]
  input_descriptions := some
    [("table", "The feature table containing the samples for which Unweighted Unifrac should be computed."),
     ("phylogeny", "Phylogenetic tree containing tip identifiers that correspond to the feature identifiers in the table. This tree can contain tip ids that are not present in the table, but all feature ids in the table must be present in this tree.")]
  parameter_descriptions := some
    [("threads", threads_description),
     ("bypass_tips", "In a bifurcating tree, the tips make up about 50% of the nodes in a tree. By ignoring them, specificity can be traded for reduced compute time. This has the effect of collapsing the phylogeny, and is analogous (in concept) to moving from 99% to 97% OTUs")]
  output_descriptions := some
    [("distance_matrix", "Distance matrix for Unweighted Unifrac.")]
  name := "Unweighted Unifrac"
  description := "Compute Unweighted Unifrac for each sample in a feature table"
  examples :=
    [("run on one core (by default)", "u_u_example"),
     ("to run on n cores, replace 1 here with your preferred integer", "u_u_n_threads_example"),
     ("use \x27auto\x27 to run on all of host system\x27s available CPU cores", "u_u_auto_threads_example"),
     ("use bypass_tips to trade specificity for reduced compute time", "u_u_bypass_tips_example")]
  citations :=
    ["lozupone2005unifrac", "lozupone2007unifrac", "hamady2010unifrac",
     "lozupone2011unifrac", "mcdonald2018unifrac"]

/-- Registration of `beta.weighted_unifrac` (lines 245-287).  Note the
output description copied verbatim from the unweighted registration. -/
def weighted_unifrac_reg : Registration where
  function := "beta.weighted_unifrac"
  inputs :=
    [("table", .FeatureTable [.Frequency, .RelativeFrequency]),
     ("phylogeny", .Phylogeny .Rooted)]
  parameters := some
    [("threads", .union (.mod .Int (.Range (some 1) none true false))
                        (.mod .Str (.Choices ["auto"]))),
     ("bypass_tips", .Bool)]
  outputs := [("distance_matrix", .DistanceMatrix)]
  input_descriptions := some
    [("table", "The feature table containing the samples for which Weighted Unifrac should be computed."),
     ("phylogeny", "Phylogenetic tree containing tip identifiers that correspond to the feature identifiers in the table. This tree can contain tip ids that are not present in the table, but all feature ids in the table must be present in this tree.")]
  parameter_descriptions := some
    [("threads", threads_description),
     ("bypass_tips", "In a bifurcating tree, the tips make up about 50% of the nodes in a tree. By ignoring them, specificity can be traded for reduced compute time. This has the effect of collapsing the phylogeny, and is analogous (in concept) to moving from 99% to 97% OTUs")]
  output_descriptions := some
    [("distance_matrix", "Distance matrix for Unweighted Unifrac.")]
  name := "Weighted Unifrac"
  description := "Compute Weighted Unifrac for each sample in a feature table"
  examples :=
    [("run on one core (by default)", "w_u_example"),
     ("to run on n cores, replace 1 here with your preferred integer", "w_u_n_threads_example"),
     ("use \x27auto\x27 to run on all of host system\x27s available CPU cores", "w_u_auto_threads_example"),
     ("use bypass_tips to trade specificity for reduced compute time", "w_u_bypass_tips_example")]
  citations :=
    ["lozupone2005unifrac", "lozupone2007unifrac", "hamady2010unifrac",
     "lozupone2011unifrac", "mcdonald2018unifrac"]

/-- Registration of `alpha.alpha_passthrough` (lines 290-306), parameterized
by the list `alpha.METRICS['NONPHYLO']['UNIMPL']` coming from the `alpha`
module, which is not among this repository's sources. -/
def alpha_passthrough_reg (alphaNonphyloUnimpl : List String) : Registration where
  function := "alpha.alpha_passthrough"
  inputs := [("table", .FeatureTable [.Frequency])]
  parameters := some [("metric", .mod .Str (.Choices alphaNonphyloUnimpl))]
  outputs := [("vector", .SampleData .AlphaDiversity)]
  input_descriptions := some
    [("table", "The feature table containing the samples for which a selected metric should be computed.")]
  parameter_descriptions := some
    [("metric", "The alpha diversity metric to be computed.")]
  output_descriptions := some
    [("vector", "Vector containing per-sample values for the chosen metric.")]
  name := "Alpha Passthrough (non-phylogenetic)"
  description := "Computes a vector of values (one value for each samples in a feature table) using the scikit-bio implementation of the selected alpha diversity metric."
  examples := [("basic", "alpha_passthrough_example")]
  citations := []

/-- Registration of `beta.beta_passthrough` (lines 309-342), parameterized
by `beta.METRICS['NONPHYLO']['UNIMPL']`. -/
def beta_passthrough_reg (betaNonphyloUnimpl : List String) : Registration where
  function := "beta.beta_passthrough"
  inputs := [("table", .FeatureTable [.Frequency])]
  parameters := some
    [("metric", .mod .Str (.Choices betaNonphyloUnimpl)),
     ("pseudocount", .mod .Int (.Range (some 1) none true false)),
     ("n_jobs", .union (.mod .Int (.Range (some 1) none true false))
                       (.mod .Str (.Choices ["auto"])))]
  outputs := [("distance_matrix", .DistanceMatrix)]
  input_descriptions := some
    [("table", "The feature table containing the samples over which beta diversity should be computed.")]
  parameter_descriptions := some
    [("metric", "The beta diversity metric to be computed."),
     ("pseudocount", "A pseudocount to handle zeros for compositional metrics. This is ignored for non-compositional metrics."),
     ("n_jobs", n_jobs_description)]
  output_descriptions := some
    [("distance_matrix", "The resulting distance matrix.")]
  name := "Beta Passthrough (non-phylogenetic)"
  description := "Computes a distance matrix for all pairs of samples in a feature table using the scikit-bio implementation of the selected beta diversity metric."
  examples :=
    [("run on one core (by default)", "beta_passthrough_example"),
     ("to run on n cores, replace 1 here with your preferred integer", "beta_passthrough_n_jobs_example"),
     ("use \x27auto\x27 to run on all of host system\x27s available CPU cores", "beta_passthrough_auto_jobs_example"),
     ("use \x27pseudocount\x27 to manually set a pseudocount for compositional metrics", "beta_passthrough_pseudocount_example")]
  citations := []

/-- Registration of `beta.beta_phylogenetic_passthrough` (lines 345-413),
parameterized by `beta.METRICS['PHYLO']['UNIMPL']`. -/
def beta_phylogenetic_passthrough_reg (betaPhyloUnimpl : List String) :
    Registration where
  function := "beta.beta_phylogenetic_passthrough"
  inputs :=
    [("table", .FeatureTable [.Frequency]),
     ("phylogeny", .Phylogeny .Rooted)]
  parameters := some
    [("metric", .mod .Str (.Choices betaPhyloUnimpl)),
     ("threads", .union (.mod .Int (.Range (some 1) none true false))
                        (.mod .Str (.Choices ["auto"]))),
     ("variance_adjusted", .Bool),
     ("alpha", .mod .Float (.Range (some 0) (some 1) true true)),
     ("bypass_tips", .Bool)]
  outputs := [("distance_matrix", .DistanceMatrix)]
  input_descriptions := some
    [("table", "The feature table containing the samples over which beta diversity should be computed."),
     ("phylogeny", "Phylogenetic tree containing tip identifiers that correspond to the feature identifiers in the table. This tree can contain tip ids that are not present in the table, but all feature ids in the table must be present in this tree.")]
  parameter_descriptions := some
    [("metric", "The beta diversity metric to be computed."),
     ("threads", threads_description),
     ("variance_adjusted", "Perform variance adjustment based on Chang et al. BMC Bioinformatics 2011. Weights distances based on the proportion of the relative abundance represented between the samples at a given node under evaluation."),
     ("alpha", "This parameter is only used when the choice of metric is generalized_unifrac. The value of alpha controls importance of sample proportions. 1.0 is weighted normalized UniFrac. 0.0 is close to unweighted UniFrac, but only if the sample proportions are dichotomized."),
     ("bypass_tips", "In a bifurcating tree, the tips make up about 50% of the nodes in a tree. By ignoring them, specificity can be traded for reduced compute time. This has the effect of collapsing the phylogeny, and is analogous (in concept) to moving from 99% to 97% OTUs")]
  output_descriptions := some
    [("distance_matrix", "The resulting distance matrix.")]
  name := "Beta Phylogenetic Passthrough"
  description := "Computes a distance matrix for all pairs of samples in a feature table using the unifrac implementation of the selected beta diversity metric."
  examples :=
    [("run on one core (by default)", "beta_phylo_passthrough_example"),
     ("to run on n cores, replace 1 here with your preferred integer", "beta_phylo_passthrough_n_threads_example"),
     ("use \x27auto\x27 to run on all of host system\x27s available CPU cores", "beta_phylo_passthrough_auto_threads_example"),
     ("use bypass_tips to trade specificity for reduced compute time", "beta_phylo_passthrough_bypass_tips_example"),
     ("variance adjustment", "beta_phylo_passthrough_variance_adjusted_example"),
     ("minimal generalized unifrac", "beta_phylo_passthrough_min_generalized_unifrac_example"),
     ("generalized unifrac", "beta_phylo_passthrough_generalized_unifrac_example")]
  citations :=
    ["lozupone2005unifrac", "lozupone2007unifrac", "hamady2010unifrac",
     "lozupone2011unifrac", "mcdonald2018unifrac", "chang2011variance",
     "chen2012genUnifrac", "sfiligoi2022unifrac"]

/-- Registration of `beta.beta_phylogenetic_meta_passthrough`
(lines 416-483), parameterized by `beta.METRICS['PHYLO']['UNIMPL']` and by
`list(CONSOLIDATIONS)` from `unifrac._meta`. -/
def beta_phylogenetic_meta_passthrough_reg
    (betaPhyloUnimpl consolidations : List String) : Registration where
  function := "beta.beta_phylogenetic_meta_passthrough"
  inputs :=
    [("tables", .ListOf (.FeatureTable [.Frequency])),
     ("phylogenies", .ListOf (.Phylogeny .Rooted))]
  parameters := some
    [("metric", .mod .Str (.Choices betaPhyloUnimpl)),
     ("threads", .union (.mod .Int (.Range (some 1) none true false))
                        (.mod .Str (.Choices ["auto"]))),
     ("variance_adjusted", .Bool),
     ("alpha", .mod .Float (.Range (some 0) (some 1) true true)),
     ("bypass_tips", .Bool),
     ("weights", .ListOf .Float),
     ("consolidation", .mod .Str (.Choices consolidations))]
  outputs := [("distance_matrix", .DistanceMatrix)]
  input_descriptions := some
    [("tables", "The feature tables containing the samples over which beta diversity should be computed."),
     ("phylogenies", "Phylogenetic trees containing tip identifiers that correspond to the feature identifiers in the table. This tree can contain tip ids that are not present in the table, but all feature ids in the table must be present in this tree.")]
  parameter_descriptions := some
    [("metric", "The beta diversity metric to be computed."),
     ("threads", threads_description),
     ("variance_adjusted", "Perform variance adjustment based on Chang et al. BMC Bioinformatics 2011. Weights distances based on the proportion of the relative abundance represented between the samples at a given node under evaluation."),
     ("alpha", "This parameter is only used when the choice of metric is generalized_unifrac. The value of alpha controls importance of sample proportions. 1.0 is weighted normalized UniFrac. 0.0 is close to unweighted UniFrac, but only if the sample proportions are dichotomized."),
     ("bypass_tips", "In a bifurcating tree, the tips make up about 50% of the nodes in a tree. By ignoring them, specificity can be traded for reduced compute time. This has the effect of collapsing the phylogeny, and is analogous (in concept) to moving from 99% to 97% OTUs"),
     ("weights", "The weight applied to each tree/table pair. This tuple is expected to be in index order with tables and phylogenies. Default is to weight each tree/table pair evenly."),
     ("consolidation", "The matrix consolidation method, which determines how the individual distance matrices are aggregated")]
  output_descriptions := some
    [("distance_matrix", "The resulting distance matrix.")]
  name := "Beta Phylogenetic Meta Passthrough"
  description := "Computes a distance matrix for all pairs of samples in the set of feature table and phylogeny pairs, using the unifrac implementation of the selected beta diversity metric."
  examples :=
    [("Basic meta unifrac", "beta_phylo_meta_passthrough_example"),
     ("meta with weights", "beta_phylo_meta_weights_example"),
     ("changing the consolidation method", "beta_phylo_meta_consolidation_example")]
  citations :=
    ["lozupone2005unifrac", "lozupone2007unifrac", "hamady2010unifrac",
     "lozupone2011unifrac", "mcdonald2018unifrac", "chang2011variance",
     "chen2012genUnifrac", "lozupone2008metaunifrac"]

/-- All registration records created by the module, in source order,
parameterized over the four externally defined choice lists. -/
def registrations (aNP bNP bP cons : List String) : List Registration :=
  [faith_pd_reg, observed_features_reg, pielou_evenness_reg,
   shannon_entropy_reg, bray_curtis_reg, jaccard_reg,
   unweighted_unifrac_reg, weighted_unifrac_reg,
   alpha_passthrough_reg aNP, beta_passthrough_reg bNP,
   beta_phylogenetic_passthrough_reg bP,
   beta_phylogenetic_meta_passthrough_reg bP cons]

/-- A top-level statement of the module.  The constructors cover everything
the module actually contains (imports, the `Citations.load` assignment, the
`Plugin` construction, constant string assignments, `register_function`
calls) together with the statement forms the spec says are absent
(`raise`, `try`/`except`, exception `class` definitions, `del` /
reassignment of a previously created record), so that their absence is a
checkable property of the statement list rather than a tautology. -/
inductive Stmt where
  | importFrom (module : String) (names : List String)
  | assignCitationsLoad (target : String)
  | assignPlugin (target : String)
  | assignStr (target : String) (value : String)
  | registerCall (r : Registration)
  | raiseStmt (exc : String)
  | tryStmt
  | classDef (cname : String)
  | delStmt (target : String)
deriving DecidableEq

/-- The module's top-level statement sequence, in source order. -/
def moduleStatements (aNP bNP bP cons : List String) : List Stmt :=
  [.importFrom "qiime2.plugin"
     ["Plugin", "Citations", "Bool", "Int", "Range", "Choices", "Str",
      "Float", "List"],
   .importFrom "q2_types.feature_table"
     ["FeatureTable", "Frequency", "RelativeFrequency", "PresenceAbsence"],
   .importFrom "q2_types.tree" ["Phylogeny", "Rooted"],
   .importFrom "q2_types.sample_data" ["AlphaDiversity", "SampleData"],
   .importFrom "q2_types.distance_matrix" ["DistanceMatrix"],
   .importFrom "unifrac._meta" ["CONSOLIDATIONS"],
   .importFrom "." ["alpha", "beta", "__version__", "examples"],
   .assignCitationsLoad "citations",
   .assignPlugin "plugin",
   .assignStr "n_jobs_description" n_jobs_description,
   .assignStr "threads_description" threads_description,
   .assignStr "drop_undef_samples_description" drop_undef_samples_description,
   .registerCall faith_pd_reg,
   .registerCall observed_features_reg,
   .registerCall pielou_evenness_reg,
   .registerCall shannon_entropy_reg,
   .registerCall bray_curtis_reg,
   .registerCall jaccard_reg,
   .registerCall unweighted_unifrac_reg,
   .registerCall weighted_unifrac_reg,
   .registerCall (alpha_passthrough_reg aNP),
   .registerCall (beta_passthrough_reg bNP),
   .registerCall (beta_phylogenetic_passthrough_reg bP),
   .registerCall (beta_phylogenetic_meta_passthrough_reg bP cons)]

/-- Effect of one statement on the plugin's registry of registration
records.  A `register_function` call appends one record; constructing the
plugin creates an empty registry; a `del` of the records (never present in
the module) would destroy them; every other statement leaves the registry
unchanged. -/
def stepStmt (registry : List Registration) : Stmt → List Registration
  | .assignPlugin _ => []
  | .registerCall r => registry ++ [r]
  | .delStmt _ => []
  | _ => registry

/-- The registry after the first `n` statements of `stmts` have run. -/
def registryAt (stmts : List Stmt) (n : Nat) : List Registration :=
  (stmts.take n).foldl stepStmt []

/-- Statement classifiers used by the theorems below. -/
def isRegisterCall : Stmt → Bool
  | .registerCall _ => true
  | _ => false

def isPluginAssign : Stmt → Bool
  | .assignPlugin _ => true
  | _ => false

def isStrAssign : Stmt → Bool
  | .assignStr _ _ => true
  | _ => false

def isErrorStmt : Stmt → Bool
  | .raiseStmt _ => true
  | .tryStmt => true
  | .classDef _ => true
  | _ => false

def isDelStmt : Stmt → Bool
  | .delStmt _ => true
  | _ => false

/-- The parameter schema of a registration, with `parameters=None` read as
the empty schema. -/
def paramsOf (r : Registration) : List (String × QType) :=
  r.parameters.getD []

/-- The names declared by a registration's parameter schema. -/
def declaredParamNames (r : Registration) : List String :=
  (paramsOf r).map Prod.fst

/-- Does an association list of descriptions contain a given key? -/
def hasKey (l : List (String × String)) (k : String) : Bool :=
  l.any fun p => p.1 == k

/-- Modelled from the spec: the `examples` module of this repository is not
among the sources (only `plugin_setup.py` is); the spec states that every
example callable a registration references exists in that module.  Its
callables are therefore modelled as exactly the attribute names the
registrations reference. -/
def examplesModuleCallables : List String :=
  ["faith_pd_example", "observed_features_example",
   "pielou_evenness_example", "pielou_drop_example",
   "shannon_entropy_example", "shannon_drop_example",
   "bray_curtis_example", "bray_curtis_n_jobs_example",
   "bray_curtis_auto_jobs_example",
   "jaccard_example", "jaccard_n_jobs_example", "jaccard_auto_jobs_example",
   "u_u_example", "u_u_n_threads_example", "u_u_auto_threads_example",
   "u_u_bypass_tips_example",
   "w_u_example", "w_u_n_threads_example", "w_u_auto_threads_example",
   "w_u_bypass_tips_example",
   "alpha_passthrough_example",
   "beta_passthrough_example", "beta_passthrough_n_jobs_example",
   "beta_passthrough_auto_jobs_example",
   "beta_passthrough_pseudocount_example",
   "beta_phylo_passthrough_example",
   "beta_phylo_passthrough_n_threads_example",
   "beta_phylo_passthrough_auto_threads_example",
   "beta_phylo_passthrough_bypass_tips_example",
   "beta_phylo_passthrough_variance_adjusted_example",
   "beta_phylo_passthrough_min_generalized_unifrac_example",
   "beta_phylo_passthrough_generalized_unifrac_example",
   "beta_phylo_meta_passthrough_example",
   "beta_phylo_meta_weights_example",
   "beta_phylo_meta_consolidation_example"]

/-- Modelled from the spec: `citations.bib`, loaded by
`Citations.load('citations.bib', package='q2_diversity_lib')`, is not among
the sources; the spec states that every cited key exists in the loaded
citation store.  The store's keys are therefore modelled as exactly the
keys the module looks up. -/
def citationStoreKeys : List String :=
  ["faith1992conservation", "armstrong2021faithspd",
   "pielou1966measurement", "shannon1948communication",
   "sorensen1948method", "jaccard1908nouvelles",
   "lozupone2005unifrac", "lozupone2007unifrac", "hamady2010unifrac",
   "lozupone2011unifrac", "mcdonald2018unifrac",
   "chang2011variance", "chen2012genUnifrac", "sfiligoi2022unifrac",
   "lozupone2008metaunifrac"]

/-- Modelled from the spec: each registered function forwards its
thread/job-count argument unmodified to the external computation library
(the `alpha` and `beta` modules holding the forwarding bodies are not among
this repository's sources). -/
def forwardedThreadsArg (v : Value) : Value := v

/-- Modelled from the spec: the external framework validates every declared
parameter of a registration against its declared type. -/
def frameworkValidates (params : List (String × QType))
    (args : String → Value) : Bool :=
  params.all fun p => accepts p.2 (args p.1)

/-- Modelled from the spec: the framework runs a forwarded function only
after its validation layer has accepted every declared parameter. -/
def frameworkInvoke {α : Type} (params : List (String × QType))
    (args : String → Value) (f : (String → Value) → α) : Option α :=
  if frameworkValidates params args then some (f args) else none

/-- The three configuration-correctness checks of a single registration:
every declared parameter is documented, every referenced example callable
exists, every cited key exists in the citation store. -/
def regConsistent (r : Registration) : Bool :=
  ((paramsOf r).all fun p => hasKey (r.parameter_descriptions.getD []) p.1)
  && (r.examples.all fun e => decide (e.2 ∈ examplesModuleCallables))
  && (r.citations.all fun c => decide (c ∈ citationStoreKeys))

theorem regConsistent_all (aNP bNP bP cons : List String) :
    (registrations aNP bNP bP cons).all regConsistent = true := rfl

/-- Claim C1: every registration record created by a
`plugin.methods.register_function` call is internally consistent: every
parameter name declared in its parameter schema has an entry in its
`parameter_descriptions` mapping (`parameters=None` together with
`parameter_descriptions=None` being trivially consistent), every key of its
`examples` mapping is bound to a callable existing in the examples module,
and every citation reference it lists is a key of the loaded citation
store. -/
theorem registration_internally_consistent (aNP bNP bP cons : List String)
    (r : Registration) (hr : r ∈ registrations aNP bNP bP cons) :
    (∀ p ∈ paramsOf r, hasKey (r.parameter_descriptions.getD []) p.1 = true)
    ∧ (∀ e ∈ r.examples, e.2 ∈ examplesModuleCallables)
    ∧ (∀ c ∈ r.citations, c ∈ citationStoreKeys) := by
  have h := List.all_eq_true.mp (regConsistent_all aNP bNP bP cons) r hr
  simp only [regConsistent, Bool.and_eq_true, List.all_eq_true] at h
  obtain ⟨⟨h1, h2⟩, h3⟩ := h
  exact ⟨h1, fun e he => of_decide_eq_true (h2 e he),
         fun c hc => of_decide_eq_true (h3 c hc)⟩

theorem registration_internally_consistent_witness :
    (∀ p ∈ paramsOf faith_pd_reg,
       hasKey (faith_pd_reg.parameter_descriptions.getD []) p.1 = true)
    ∧ (∀ e ∈ faith_pd_reg.examples, e.2 ∈ examplesModuleCallables)
    ∧ (∀ c ∈ faith_pd_reg.citations, c ∈ citationStoreKeys) :=
  registration_internally_consistent [] [] [] [] faith_pd_reg
    (by simp [registrations])

/-- The output schema forms the spec allows: exactly one output, either the
per-sample vector or the pairwise distance matrix. -/
def outputSchemaOk (r : Registration) : Bool :=
  decide (r.outputs = [("vector", QType.SampleData .AlphaDiversity)])
  || decide (r.outputs = [("distance_matrix", QType.DistanceMatrix)])

theorem outputSchemaOk_all (aNP bNP bP cons : List String) :
    (registrations aNP bNP bP cons).all outputSchemaOk = true := rfl

/-- Claim C2: every registered function declares exactly one output
artifact, and that output is either `('vector', SampleData[AlphaDiversity])`
or `('distance_matrix', DistanceMatrix)`; no registration declares zero or
multiple outputs or any other output type. -/
theorem single_output_vector_or_distance_matrix (aNP bNP bP cons : List String)
    (r : Registration) (hr : r ∈ registrations aNP bNP bP cons) :
    r.outputs = [("vector", QType.SampleData .AlphaDiversity)]
    ∨ r.outputs = [("distance_matrix", QType.DistanceMatrix)] := by
  have h := List.all_eq_true.mp (outputSchemaOk_all aNP bNP bP cons) r hr
  simpa only [outputSchemaOk, Bool.or_eq_true, decide_eq_true_eq] using h

theorem single_output_vector_or_distance_matrix_witness :
    bray_curtis_reg.outputs = [("vector", QType.SampleData .AlphaDiversity)]
    ∨ bray_curtis_reg.outputs = [("distance_matrix", QType.DistanceMatrix)] :=
  single_output_vector_or_distance_matrix [] [] [] [] bray_curtis_reg
    (by simp [registrations])

/-- The four parameter-constraint forms the spec's interface section lists:
an integer restricted to a range, a string restricted to an enumerated set
of choices, a boolean, and a float bounded to the interval [0, 1]; a union
of allowed forms (the thread/job-count type) stays within the forms. -/
def allowedParamForm : QType → Bool
  | .Bool => true
  | .mod .Int (.Range _ _ _ _) => true
  | .mod .Str (.Choices _) => true
  | .mod .Float (.Range (some 0) (some 1) _ _) => true
  | .union a b => allowedParamForm a && allowedParamForm b
  | _ => false

/-- Claim C3 counterexample: the meta passthrough registration declares the
parameter 'weights' as `List[Float]`, which is none of the four constraint
forms and accepts, for instance, the list `[2.0]`, whose element lies
outside the interval [0, 1]. -/
theorem weights_param_outside_constraint_forms :
    ("weights", QType.ListOf QType.Float) ∈
      paramsOf (beta_phylogenetic_meta_passthrough_reg ["m"] ["c"])
    ∧ allowedParamForm (QType.ListOf QType.Float) = false
    ∧ accepts (QType.ListOf QType.Float) (Value.list [Value.float 2]) = true
    ∧ satisfies (Constraint.Range (some 0) (some 1) true true)
        (Value.float 2) = false :=
  ⟨by decide, rfl, rfl, rfl⟩

/-- Every declared parameter is of an allowed constraint form, except the
meta passthrough's 'weights', declared `List[Float]`. -/
def paramFormOk (r : Registration) : Bool :=
  (paramsOf r).all fun p =>
    allowedParamForm p.2
    || (p.1 == "weights" && decide (p.2 = QType.ListOf QType.Float))

theorem paramFormOk_all (aNP bNP bP cons : List String) :
    (registrations aNP bNP bP cons).all paramFormOk = true := rfl

/-- Claim C3 (amended): every parameter constraint declared in any
registration is an integer restricted to a range, a string restricted to an
enumerated set of choices, a boolean, a float bounded to [0, 1], or a union
of such forms — except the parameter 'weights' of
`beta_phylogenetic_meta_passthrough`, declared `List[Float]`, whose float
elements are not bounded to [0, 1]. -/
theorem param_constraint_forms (aNP bNP bP cons : List String)
    (r : Registration) (hr : r ∈ registrations aNP bNP bP cons)
    (p : String × QType) (hp : p ∈ paramsOf r) :
    allowedParamForm p.2 = true
    ∨ (p.1 = "weights" ∧ p.2 = QType.ListOf QType.Float) := by
  have h1 := List.all_eq_true.mp (paramFormOk_all aNP bNP bP cons) r hr
  simp only [paramFormOk, List.all_eq_true] at h1
  have h2 := h1 p hp
  simpa only [Bool.or_eq_true, Bool.and_eq_true, beq_iff_eq,
    decide_eq_true_eq] using h2

theorem param_constraint_forms_witness :
    allowedParamForm QType.Bool = true
    ∨ ("drop_undefined_samples" = "weights"
       ∧ QType.Bool = QType.ListOf QType.Float) :=
  param_constraint_forms [] [] [] [] pielou_evenness_reg
    (by simp [registrations]) ("drop_undefined_samples", QType.Bool)
    (by decide)

/-- The thread/job-count type admits exactly the integers at least 1 and
the sentinel string 'auto'. -/
theorem accepts_threadsType (v : Value) :
    accepts threadsType v = true ↔
      (∃ k : Int, 1 ≤ k ∧ v = Value.int k) ∨ v = Value.str "auto" := by
  cases v <;>
    simp [threadsType, accepts, satisfies, numericVal, lowerOk, upperOk]
  exact_mod_cast Iff.rfl

/-- Every parameter named 'threads' or 'n_jobs' is declared at the
thread/job-count type. -/
def threadsParamOk (r : Registration) : Bool :=
  (paramsOf r).all fun p =>
    !(p.1 == "threads" || p.1 == "n_jobs") || decide (p.2 = threadsType)

theorem threadsParamOk_all (aNP bNP bP cons : List String) :
    (registrations aNP bNP bP cons).all threadsParamOk = true := rfl

/-- Claim C4: for every registered function that accepts a thread/job-count
parameter (named 'threads' or 'n_jobs'), that parameter's declared type is
`Int % Range(1, None) | Str % Choices(['auto'])`, which admits exactly the
union of the integers greater than or equal to 1 and the sentinel string
'auto'; and the value is forwarded unmodified to the external computation
library (the forwarding, whose bodies live outside this repository's
sources, is modelled from the spec by `forwardedThreadsArg`). -/
theorem threads_param_admits_pos_int_or_auto (aNP bNP bP cons : List String)
    (r : Registration) (hr : r ∈ registrations aNP bNP bP cons)
    (p : String × QType) (hp : p ∈ paramsOf r)
    (hn : p.1 = "threads" ∨ p.1 = "n_jobs") :
    p.2 = threadsType
    ∧ (∀ v, accepts p.2 v = true ↔
        (∃ k : Int, 1 ≤ k ∧ v = Value.int k) ∨ v = Value.str "auto")
    ∧ (∀ v, forwardedThreadsArg v = v) := by
  have h1 := List.all_eq_true.mp (threadsParamOk_all aNP bNP bP cons) r hr
  simp only [threadsParamOk, List.all_eq_true] at h1
  have h2 := h1 p hp
  simp only [Bool.or_eq_true, Bool.not_eq_true', Bool.or_eq_false_iff,
    beq_eq_false_iff_ne, ne_eq, decide_eq_true_eq] at h2
  have ht : p.2 = threadsType := by
    rcases h2 with ⟨hne, _⟩ | ht
    · rcases hn with hn | hn
      · exact absurd hn hne
      · exact absurd hn (by tauto)
    · exact ht
  refine ⟨ht, ?_, fun v => rfl⟩
  rw [ht]
  exact accepts_threadsType

theorem threads_param_admits_pos_int_or_auto_witness :
    QType.union (QType.mod .Int (.Range (some 1) none true false))
        (QType.mod .Str (.Choices ["auto"])) = threadsType
    ∧ (∀ v, accepts (QType.union
          (QType.mod .Int (.Range (some 1) none true false))
          (QType.mod .Str (.Choices ["auto"]))) v = true ↔
        (∃ k : Int, 1 ≤ k ∧ v = Value.int k) ∨ v = Value.str "auto")
    ∧ (∀ v, forwardedThreadsArg v = v) :=
  threads_param_admits_pos_int_or_auto [] [] [] [] faith_pd_reg
    (by simp [registrations])
    ("threads", QType.union (QType.mod .Int (.Range (some 1) none true false))
        (QType.mod .Str (.Choices ["auto"])))
    (by decide) (Or.inl rfl)

/-- The parameter kind names the spec enumerates. -/
def parameterKindNames : List String :=
  ["threads", "n_jobs", "drop_undefined_samples", "metric", "pseudocount",
   "variance_adjusted", "alpha", "bypass_tips", "weights", "consolidation"]

/-- Claim C5 counterexample: the module creates twelve registration
records, not ten. -/
theorem registrations_number_twelve :
    (registrations ["m"] ["m"] ["m"] ["m"]).length = 12 ∧ (12 : Nat) ≠ 10 :=
  ⟨rfl, by decide⟩

theorem paramNames_within_kinds (aNP bNP bP cons : List String) :
    ((registrations aNP bNP bP cons).all fun r =>
      (declaredParamNames r).all fun n =>
        decide (n ∈ parameterKindNames)) = true := rfl

theorem kinds_all_declared (aNP bNP bP cons : List String) :
    (parameterKindNames.all fun n =>
      (registrations aNP bNP bP cons).any fun r =>
        decide (n ∈ declaredParamNames r)) = true := rfl

/-- Claim C5 (amended): the set of parameter names declared across all
twelve registrations is exactly 'threads', 'n_jobs',
'drop_undefined_samples', 'metric', 'pseudocount', 'variance_adjusted',
'alpha', 'bypass_tips', 'weights' and 'consolidation': no registration
declares a parameter outside this set, and each name in the set is
declared by some registration. -/
theorem parameter_kinds_exactly (aNP bNP bP cons : List String) :
    (registrations aNP bNP bP cons).length = 12
    ∧ (∀ r ∈ registrations aNP bNP bP cons,
        ∀ n ∈ declaredParamNames r, n ∈ parameterKindNames)
    ∧ (∀ n ∈ parameterKindNames,
        ∃ r ∈ registrations aNP bNP bP cons, n ∈ declaredParamNames r) := by
  refine ⟨rfl, ?_, ?_⟩
  · intro r hr n hn
    exact of_decide_eq_true
      (List.all_eq_true.mp
        (List.all_eq_true.mp (paramNames_within_kinds aNP bNP bP cons) r hr)
        n hn)
  · intro n hn
    have h := List.all_eq_true.mp (kinds_all_declared aNP bNP bP cons) n hn
    obtain ⟨r, hr, hd⟩ := List.any_eq_true.mp h
    exact ⟨r, hr, of_decide_eq_true hd⟩

theorem parameter_kinds_exactly_witness :
    ∃ r ∈ registrations ["m"] ["m"] ["m"] ["m"],
      "weights" ∈ declaredParamNames r :=
  (parameter_kinds_exactly ["m"] ["m"] ["m"] ["m"]).2.2 "weights" (by decide)

/-- Is a type expression built solely from the framework's type-constraint
vocabulary (`Bool`, `Int`, `Float`, `Str`, `%` with `Range`/`Choices`,
union, `List`), with no semantic artifact type inside? -/
def usesOnlyVocab : QType → Bool
  | .Int => true
  | .Float => true
  | .Str => true
  | .Bool => true
  | .mod base _ => usesOnlyVocab base
  | .union a b => usesOnlyVocab a && usesOnlyVocab b
  | .ListOf t => usesOnlyVocab t
  | _ => false

theorem no_error_statements (aNP bNP bP cons : List String) :
    ((moduleStatements aNP bNP bP cons).all fun s => !(isErrorStmt s)) =
      true := rfl

theorem params_use_vocab (aNP bNP bP cons : List String) :
    ((registrations aNP bNP bP cons).all fun r =>
      (paramsOf r).all fun p => usesOnlyVocab p.2) = true := rfl

/-- Claim C6: the module defines no error kinds of its own: its statement
sequence contains no exception class definition, no raise and no
try/except; every validation rule it expresses is declared through the
external framework's type-constraint vocabulary (`Range`, `Choices`,
`Bool`, `Int`, `Float`, `Str`, `List`); and — modelled from the spec by
`frameworkInvoke`, since the framework is external — a forwarded function
executes only after that framework's validation layer has accepted every
declared parameter. -/
theorem no_own_error_kinds (aNP bNP bP cons : List String) :
    (∀ s ∈ moduleStatements aNP bNP bP cons, isErrorStmt s = false)
    ∧ (∀ r ∈ registrations aNP bNP bP cons,
        ∀ p ∈ paramsOf r, usesOnlyVocab p.2 = true)
    ∧ (∀ (α : Type) (params : List (String × QType)) (args : String → Value)
        (f : (String → Value) → α),
        (frameworkInvoke params args f).isSome = true →
          frameworkValidates params args = true) := by
  refine ⟨?_, ?_, ?_⟩
  · intro s hs
    have h := List.all_eq_true.mp (no_error_statements aNP bNP bP cons) s hs
    simpa only [Bool.not_eq_true'] using h
  · intro r hr p hp
    exact List.all_eq_true.mp
      (List.all_eq_true.mp (params_use_vocab aNP bNP bP cons) r hr) p hp
  · intro α params args f h
    by_cases hv : frameworkValidates params args = true
    · exact hv
    · simp [frameworkInvoke, hv] at h

theorem no_own_error_kinds_witness :
    frameworkValidates [("bypass_tips", QType.Bool)]
      (fun _ => Value.bool true) = true :=
  (no_own_error_kinds [] [] [] []).2.2 Nat [("bypass_tips", QType.Bool)]
    (fun _ => Value.bool true) (fun _ => 0) rfl

/-- Claim C7 counterexample: the statement at index 9, immediately after
the plugin construction at index 8, is a constant string assignment, not a
`register_function` call. -/
theorem statement_after_plugin_not_register :
    (moduleStatements ["m"] ["m"] ["m"] ["m"])[8]? =
      some (Stmt.assignPlugin "plugin")
    ∧ (moduleStatements ["m"] ["m"] ["m"] ["m"])[9]? =
        some (Stmt.assignStr "n_jobs_description" n_jobs_description)
    ∧ isRegisterCall (Stmt.assignStr "n_jobs_description" n_jobs_description)
        = false :=
  ⟨rfl, rfl, rfl⟩

theorem after_plugin_shape (aNP bNP bP cons : List String) :
    (((moduleStatements aNP bNP bP cons).drop 9).all fun s =>
      isRegisterCall s || isStrAssign s) = true := rfl

theorem no_del_statements (aNP bNP bP cons : List String) :
    ((moduleStatements aNP bNP bP cons).all fun s => !(isDelStmt s)) =
      true := rfl

/-- Claim C7 (amended): the single Plugin object is constructed exactly
once (at statement index 8), every later top-level statement is either an
assignment of a constant description string or a `register_function` call
adding one record to that plugin, no statement deletes or reassigns a
record, the registry after `n` statements is exactly the first
`n - 12` registration records in source order (so the records are created
once, at module load), and a record present in the registry at some point
is still present, unchanged and at the same index, at every later point. -/
theorem registry_created_once_never_mutated (aNP bNP bP cons : List String) :
    (moduleStatements aNP bNP bP cons).countP isPluginAssign = 1
    ∧ (moduleStatements aNP bNP bP cons)[8]? =
        some (Stmt.assignPlugin "plugin")
    ∧ (∀ s ∈ (moduleStatements aNP bNP bP cons).drop 9,
        (isRegisterCall s || isStrAssign s) = true)
    ∧ (∀ s ∈ moduleStatements aNP bNP bP cons, isDelStmt s = false)
    ∧ (∀ n, registryAt (moduleStatements aNP bNP bP cons) n =
        (registrations aNP bNP bP cons).take (n - 12))
    ∧ (∀ i j k : Nat, i ≤ j → ∀ r : Registration,
        (registryAt (moduleStatements aNP bNP bP cons) i)[k]? = some r →
        (registryAt (moduleStatements aNP bNP bP cons) j)[k]? = some r) := by
  have hreglen : (registrations aNP bNP bP cons).length = 12 := rfl
  have htrace : ∀ n, registryAt (moduleStatements aNP bNP bP cons) n =
      (registrations aNP bNP bP cons).take (n - 12) := by
    intro n
    rcases Nat.lt_or_ge n 25 with h | h
    · interval_cases n <;> rfl
    · have htk : (moduleStatements aNP bNP bP cons).take n =
          moduleStatements aNP bNP bP cons :=
        List.take_of_length_le (show (24 : Nat) ≤ n by omega)
      have hfull : registryAt (moduleStatements aNP bNP bP cons) n =
          registrations aNP bNP bP cons := by
        unfold registryAt
        rw [htk]
        rfl
      rw [hfull, List.take_of_length_le (by rw [hreglen]; omega)]
  refine ⟨rfl, rfl, ?_, ?_, htrace, ?_⟩
  · intro s hs
    exact List.all_eq_true.mp (after_plugin_shape aNP bNP bP cons) s hs
  · intro s hs
    have h := List.all_eq_true.mp (no_del_statements aNP bNP bP cons) s hs
    simpa only [Bool.not_eq_true'] using h
  · intro i j k hij r hik
    rw [htrace i] at hik
    rw [htrace j]
    have hki : k < i - 12 := by
      by_contra hk
      push_neg at hk
      have hnone :
          (((registrations aNP bNP bP cons).take (i - 12)))[k]? = none :=
        List.getElem?_eq_none
          (le_trans (by rw [List.length_take]; exact min_le_left _ _) hk)
      rw [hnone] at hik
      exact Option.noConfusion hik
    have hkj : k < j - 12 := lt_of_lt_of_le hki (Nat.sub_le_sub_right hij 12)
    rw [List.getElem?_take, if_pos hkj]
    rw [List.getElem?_take, if_pos hki] at hik
    exact hik

theorem registry_created_once_never_mutated_witness :
    (registryAt (moduleStatements ["m"] ["m"] ["m"] ["m"]) 24)[0]? =
      some faith_pd_reg :=
  (registry_created_once_never_mutated ["m"] ["m"] ["m"] ["m"]).2.2.2.2.2
    13 24 0 (by omega) faith_pd_reg rfl

/-- Claim C8: the Weighted Unifrac registration (function
`beta.weighted_unifrac`, name 'Weighted Unifrac') declares the output
description "Distance matrix for Unweighted Unifrac." for its
'distance_matrix' output — the same text as the Unweighted Unifrac
registration — rather than a description naming the weighted metric. -/
theorem weighted_unifrac_output_description_copied :
    weighted_unifrac_reg.function = "beta.weighted_unifrac"
    ∧ weighted_unifrac_reg.name = "Weighted Unifrac"
    ∧ weighted_unifrac_reg.output_descriptions =
        some [("distance_matrix", "Distance matrix for Unweighted Unifrac.")]
    ∧ weighted_unifrac_reg.output_descriptions =
        unweighted_unifrac_reg.output_descriptions :=
  ⟨rfl, rfl, rfl, rfl⟩

/-- Claim C9 counterexample: the meta passthrough's table input is named
'tables' and declared `List[FeatureTable[Frequency]]`, which is not the
type `FeatureTable[Frequency]` the claim states for it. -/
theorem meta_passthrough_tables_input_is_list_typed :
    (beta_phylogenetic_meta_passthrough_reg ["m"] ["c"]).inputs.lookup
        "tables" =
      some (QType.ListOf (QType.FeatureTable [Norm.Frequency]))
    ∧ QType.ListOf (QType.FeatureTable [Norm.Frequency]) ≠
        QType.FeatureTable [Norm.Frequency] :=
  ⟨rfl, by decide⟩

/-- Claim C9 (amended): the registrations partition by accepted table
normalization: jaccard, faith_pd, observed_features and unweighted_unifrac
accept `FeatureTable[Frequency | RelativeFrequency | PresenceAbsence]`;
pielou_evenness, shannon_entropy, bray_curtis and weighted_unifrac accept
only `FeatureTable[Frequency | RelativeFrequency]`; the passthrough
functions alpha_passthrough, beta_passthrough and
beta_phylogenetic_passthrough accept only `FeatureTable[Frequency]`; and
the fourth passthrough, beta_phylogenetic_meta_passthrough, accepts only
`List[FeatureTable[Frequency]]` — so all four passthrough registrations
are restricted to the Frequency normalization. -/
theorem table_normalization_groups (aNP bNP bP cons : List String) :
    (faith_pd_reg.inputs.lookup "table" =
        some (QType.FeatureTable
          [.Frequency, .RelativeFrequency, .PresenceAbsence])
      ∧ observed_features_reg.inputs.lookup "table" =
        some (QType.FeatureTable
          [.Frequency, .RelativeFrequency, .PresenceAbsence])
      ∧ jaccard_reg.inputs.lookup "table" =
        some (QType.FeatureTable
          [.Frequency, .RelativeFrequency, .PresenceAbsence])
      ∧ unweighted_unifrac_reg.inputs.lookup "table" =
        some (QType.FeatureTable
          [.Frequency, .RelativeFrequency, .PresenceAbsence]))
    ∧ (pielou_evenness_reg.inputs.lookup "table" =
        some (QType.FeatureTable [.Frequency, .RelativeFrequency])
      ∧ shannon_entropy_reg.inputs.lookup "table" =
        some (QType.FeatureTable [.Frequency, .RelativeFrequency])
      ∧ bray_curtis_reg.inputs.lookup "table" =
        some (QType.FeatureTable [.Frequency, .RelativeFrequency])
      ∧ weighted_unifrac_reg.inputs.lookup "table" =
        some (QType.FeatureTable [.Frequency, .RelativeFrequency]))
    ∧ ((alpha_passthrough_reg aNP).inputs.lookup "table" =
        some (QType.FeatureTable [.Frequency])
      ∧ (beta_passthrough_reg bNP).inputs.lookup "table" =
        some (QType.FeatureTable [.Frequency])
      ∧ (beta_phylogenetic_passthrough_reg bP).inputs.lookup "table" =
        some (QType.FeatureTable [.Frequency])
      ∧ (beta_phylogenetic_meta_passthrough_reg bP cons).inputs.lookup
          "tables" =
        some (QType.ListOf (QType.FeatureTable [.Frequency]))) :=
  ⟨⟨rfl, rfl, rfl, rfl⟩, ⟨rfl, rfl, rfl, rfl⟩, ⟨rfl, rfl, rfl, rfl⟩⟩

theorem phylogeny_inputs_rooted_all (aNP bNP bP cons : List String) :
    ((registrations aNP bNP bP cons).all fun r =>
      r.inputs.all fun p =>
        decide (p.1 = "phylogeny" ∨ p.1 = "phylogenies" →
          p.2 = QType.Phylogeny .Rooted
          ∨ p.2 = QType.ListOf (QType.Phylogeny .Rooted))) = true := rfl

/-- Claim C10: every registration that declares a phylogenetic input (an
input named 'phylogeny' or 'phylogenies') types it as a rooted phylogeny —
`Phylogeny[Rooted]` or `List[Phylogeny[Rooted]]` — so no registered
function accepts an unrooted tree. -/
theorem phylogeny_inputs_rooted (aNP bNP bP cons : List String)
    (r : Registration) (hr : r ∈ registrations aNP bNP bP cons)
    (p : String × QType) (hp : p ∈ r.inputs)
    (hn : p.1 = "phylogeny" ∨ p.1 = "phylogenies") :
    p.2 = QType.Phylogeny .Rooted
    ∨ p.2 = QType.ListOf (QType.Phylogeny .Rooted) := by
  have h := List.all_eq_true.mp
    (List.all_eq_true.mp (phylogeny_inputs_rooted_all aNP bNP bP cons) r hr)
    p hp
  exact of_decide_eq_true h hn

theorem phylogeny_inputs_rooted_witness :
    (QType.Phylogeny .Rooted : QType) = QType.Phylogeny .Rooted
    ∨ (QType.Phylogeny .Rooted : QType) =
        QType.ListOf (QType.Phylogeny .Rooted) :=
  phylogeny_inputs_rooted [] [] [] [] faith_pd_reg (by simp [registrations])
    ("phylogeny", QType.Phylogeny .Rooted) (by decide) (Or.inl rfl)
